import Mathlib

/-!
Shallow embedding of the KeyboardTester core (`src/js/KeyboardTester.js` and the
layout catalog `KeyboardLayouts.js`): the row/key layout builder, the per-key
three-state tracker (`NeverPressed` / `Down` / `Pressed`) driven by
`onKeyDown` / `onKeyUp` / `clear`, the keycode → key index map with `remap` and
`getKey`, and the five concrete layout factories.

Modelling conventions:
* JS numbers that occur here are integers; they are embedded as `Int`.
* A nullable JS number (`{number|null}`) is `Option Int`; a nullable string is
  `Option String`.
* The private `#map` object maps a keycode string to a reference to a
  `KeyShape` object that also lives in `keys`; we embed references as indices
  into the `keys` list, so mutation through the map and through the list are
  the same mutation.
* DOM fields (`$ref`, `$dom`) and rendering are outside the embedded core: the
  only observable effect of `renderKey` on the embedded state is none.
* `getKey` can observe the distinction between a stored object, the JS value
  `undefined` (missing map entry) and the JS value `null`; `JSVal` embeds that
  three-way distinction.
-/

/-- State of a key (`KeyState` enum in the source). -/
inductive KeyState where
  | NeverPressed
  | Pressed
  | Down
  deriving DecidableEq, Repr

/-- Embeds `IPosition`: the placement of a shape. -/
structure IPosition where
  x : Int
  y : Int
  deriving DecidableEq, Repr

/-- Embeds `ISize`: width and height in pixels, `none` meaning use default. -/
structure ISize where
  width : Option Int
  height : Option Int
  deriving DecidableEq, Repr

/-- Embeds the keyboard's `keySize` value `\x7b width: 20, height: 20 \x7d`,
whose two fields are always concrete numbers. -/
structure ConcreteSize where
  width : Int
  height : Int
  deriving DecidableEq, Repr

/-- Embeds class `KeyShape`: one key that can be pressed on the keyboard.
The DOM element `$ref` is not part of the embedded state. -/
structure KeyShape where
  displayChar : String
  shiftDisplayChar : String
  keyCode : String
  size : ISize
  position : IPosition
  zIndex : Option String
  state : KeyState
  deriving DecidableEq, Repr

/-- Embeds `new KeyShape(char, keyCode)`: the field initializers of the class
followed by the constructor body. -/
def KeyShape.new (char : String) (keyCode : String) : KeyShape :=
  { displayChar := char
    shiftDisplayChar := " "
    keyCode := keyCode
    size := { width := some 20, height := some 20 }
    position := { x := 0, y := 0 }
    zIndex := none
    state := KeyState.NeverPressed }

/-- Embeds a JS expression whose value is an object reference (here: an index
into the key list), `undefined`, or `null`. -/
inductive JSVal (α : Type) where
  | obj (a : α)
  | undef
  | null
  deriving DecidableEq, Repr

/-- Embeds the JS strict comparison `v === null`. -/
def JSVal.isNull {α : Type} : JSVal α → Bool
  | JSVal.null => true
  | _ => false

/-- Embeds the JS object-property write `map[code] = i`: overwrites the
binding for `code` if present, otherwise adds one. -/
def mapInsert (m : List (String × Nat)) (code : String) (i : Nat) :
    List (String × Nat) :=
  match m with
  | [] => [(code, i)]
  | p :: rest =>
    if p.1 = code then (code, i) :: rest else p :: mapInsert rest code i

/-- Embeds the JS object-property read `map[code]`: the stored reference, or
`none` standing for the JS value `undefined` when no binding exists. -/
def mapFind (m : List (String × Nat)) (code : String) : Option Nat :=
  match m with
  | [] => none
  | p :: rest => if p.1 = code then some p.2 else mapFind rest code

/-- Embeds class `Keyboard`. `keys` is the key array; `map` is the private
`#map` from keycodes to key references (indices into `keys`). The DOM root
`$dom` is not part of the embedded state. -/
structure Keyboard where
  keys : List KeyShape
  nextRowPosition : IPosition
  startPosition : IPosition
  keySize : ConcreteSize
  map : List (String × Nat)
  deriving DecidableEq, Repr

/-- Embeds `new Keyboard()`: field initializers, then the constructor body
(which, besides DOM setup, copies `startPosition` into `nextRowPosition`). -/
def Keyboard.new : Keyboard :=
  { keys := []
    nextRowPosition := { x := 10, y := 10 }
    startPosition := { x := 10, y := 10 }
    keySize := { width := 20, height := 20 }
    map := [] }

/-- Embeds `Keyboard.addKey(key)`: pushes the key onto `keys` and binds its
keycode in `#map` to (a reference to) that key. DOM element creation is
dropped. -/
def Keyboard.addKey (kb : Keyboard) (key : KeyShape) : Keyboard :=
  { kb with
    keys := kb.keys ++ [key]
    map := mapInsert kb.map key.keyCode kb.keys.length }

/-- Sets the state of the key at index `i` (a write through a reference out of
`#map`). Out-of-range indices leave the list unchanged; they never occur for
references obtained from `#map`. -/
def setKeyState (ks : List KeyShape) (i : Nat) (s : KeyState) : List KeyShape :=
  match ks[i]? with
  | none => ks
  | some k => ks.set i { k with state := s }

/-- Embeds `Keyboard.onKeyDown(keyCode)`: if the keycode is bound in `#map`,
set that key's state to `Down` (then re-render it, which has no effect on the
embedded state); otherwise do nothing. -/
def Keyboard.onKeyDown (kb : Keyboard) (keyCode : String) : Keyboard :=
  match mapFind kb.map keyCode with
  | none => kb
  | some i => { kb with keys := setKeyState kb.keys i KeyState.Down }

/-- Embeds `Keyboard.onKeyUp(keyCode)`: if the keycode is bound in `#map`,
set that key's state to `Pressed`; otherwise do nothing. -/
def Keyboard.onKeyUp (kb : Keyboard) (keyCode : String) : Keyboard :=
  match mapFind kb.map keyCode with
  | none => kb
  | some i => { kb with keys := setKeyState kb.keys i KeyState.Pressed }

/-- Embeds `Keyboard.clear()`: sets every key's state to `NeverPressed`
(and re-renders each, which has no effect on the embedded state). -/
def Keyboard.clear (kb : Keyboard) : Keyboard :=
  { kb with keys := kb.keys.map fun k => { k with state := KeyState.NeverPressed } }

/-- Embeds `Keyboard.remap()`: rebuilds `#map` from scratch by iterating over
`keys` in order and binding each key's keycode to that key. -/
def Keyboard.remap (kb : Keyboard) : Keyboard :=
  { kb with
    map := kb.keys.enum.foldl (fun m p => mapInsert m p.2.keyCode p.1) [] }

/-- Embeds `Keyboard.getKey(keyCode)`. The source reads
`let key = this.#map[keyCode]`, which yields the stored object or the JS value
`undefined` on a missing entry — never `null` — and then tests
`if (key === null)` before the `console.error` branch. The returned `Bool`
records whether `console.error` ran. -/
def Keyboard.getKey (kb : Keyboard) (keyCode : String) : JSVal Nat × Bool :=
  let key : JSVal Nat :=
    match mapFind kb.map keyCode with
    | some i => JSVal.obj i
    | none => JSVal.undef
  if key.isNull then (JSVal.null, true)
  else (key, false)

/-- Embeds class `KeyboardRow`: the row's upper-left corner and the position
where the next key will be placed. The back-reference to the keyboard is
embedded by passing the keyboard state explicitly. -/
structure KeyboardRow where
  position : IPosition
  nextPosition : IPosition
  deriving DecidableEq, Repr

/-- Embeds `new KeyboardRow(keyboard, position)`: both fields become copies of
the given position. -/
def KeyboardRow.new (position : IPosition) : KeyboardRow :=
  { position := position, nextPosition := position }

/-- Embeds `Keyboard.nextRow(gap = 0)`: adds `gap` to the vertical cursor,
creates a row at the current cursor, then resets the cursor's x to the start
margin and advances its y by the default key height. -/
def Keyboard.nextRow (kb : Keyboard) (gap : Int) : Keyboard × KeyboardRow :=
  let pos1 : IPosition := { kb.nextRowPosition with y := kb.nextRowPosition.y + gap }
  let row := KeyboardRow.new pos1
  let kb' := { kb with
    nextRowPosition := { x := kb.startPosition.x, y := pos1.y + kb.keySize.height } }
  (kb', row)

/-- Embeds the JS comparison `width > 0` where `width` is a number or `null`
(`null > 0` is false). -/
def jsGtZero (width : Option Int) : Bool :=
  match width with
  | some n => decide (0 < n)
  | none => false

/-- Embeds JS string truthiness as used in `if (shiftChar)`: `null` and the
empty string are falsy. -/
def jsTruthyStr (s : Option String) : Bool :=
  match s with
  | none => false
  | some t => t ≠ ""

/-- Embeds `applyDefaultsTo(key.size, keyboard.keySize)` specialized to sizes:
a `null` width or height is replaced by the keyboard's (always concrete)
default. -/
def applyDefaultsTo (s : ISize) (d : ConcreteSize) : ConcreteSize :=
  { width := s.width.getD d.width, height := s.height.getD d.height }

/-- Embeds `KeyboardRow.addKey(displayChar, keyCode, width = -1, shiftChar = null)`
with every argument explicit: builds the key, overrides its shift label if
`shiftChar` is truthy, places it at the row cursor, normalizes its width
(`width > 0 ? width : null`) and nulls its height, advances the row cursor by
the default-resolved width, appends the key to the keyboard, and returns (a
reference to) the created key. -/
def KeyboardRow.addKeyFull (kb : Keyboard) (row : KeyboardRow)
    (displayChar : String) (keyCode : String) (width : Option Int)
    (shiftChar : Option String) : Keyboard × KeyboardRow × Nat :=
  let key0 := KeyShape.new displayChar keyCode
  let key1 :=
    if jsTruthyStr shiftChar then { key0 with shiftDisplayChar := shiftChar.getD " " }
    else key0
  let key2 := { key1 with position := row.nextPosition }
  let key3 := { key2 with size := { width := if jsGtZero width then width else none,
                                    height := none } }
  let size := applyDefaultsTo key3.size kb.keySize
  let row' := { row with nextPosition := { row.nextPosition with
                  x := row.nextPosition.x + size.width } }
  let kbIdx := kb.keys.length
  (kb.addKey key3, row', kbIdx)

/-- Embeds the call form `row.addKey(displayChar, keyCode)`: the omitted width
defaults to `-1` and the omitted shift character to `null`. -/
def KeyboardRow.addKey (kb : Keyboard) (row : KeyboardRow)
    (displayChar : String) (keyCode : String) : Keyboard × KeyboardRow × Nat :=
  KeyboardRow.addKeyFull kb row displayChar keyCode (some (-1)) none

/-- Embeds the call form `row.addKey(displayChar, keyCode, width)`. -/
def KeyboardRow.addKeyW (kb : Keyboard) (row : KeyboardRow)
    (displayChar : String) (keyCode : String) (width : Int) :
    Keyboard × KeyboardRow × Nat :=
  KeyboardRow.addKeyFull kb row displayChar keyCode (some width) none

/-- Embeds the call form `row.addKey(displayChar, keyCode, width, shiftChar)`
where `width` may be the literal `null`. -/
def KeyboardRow.addKeyWS (kb : Keyboard) (row : KeyboardRow)
    (displayChar : String) (keyCode : String) (width : Option Int)
    (shiftChar : String) : Keyboard × KeyboardRow × Nat :=
  KeyboardRow.addKeyFull kb row displayChar keyCode width (some shiftChar)

/-- Embeds `KeyboardRow.addGap(width)`: advances the row's horizontal cursor
by `width` without creating a key. -/
def KeyboardRow.addGap (row : KeyboardRow) (width : Int) : KeyboardRow :=
  { row with nextPosition := { row.nextPosition with
      x := row.nextPosition.x + width } }

/-- Applies `f` to the key at index `i` (a field write through a key
reference held by the layout factory). Out-of-range indices leave the list
unchanged; they never occur for references returned by `addKey`. -/
def listModifyKey (ks : List KeyShape) (i : Nat) (f : KeyShape → KeyShape) :
    List KeyShape :=
  match ks[i]? with
  | none => ks
  | some k => ks.set i (f k)

/-- Embeds a factory's `key.size.height = h` write on a key returned by
`addKey`. -/
def Keyboard.setKeyHeight (kb : Keyboard) (i : Nat) (h : Option Int) : Keyboard :=
  { kb with keys := listModifyKey kb.keys i fun k =>
      { k with size := { k.size with height := h } } }

/-- Embeds a factory's `key.zIndex = z` write on a key returned by `addKey`. -/
def Keyboard.setKeyZIndex (kb : Keyboard) (i : Nat) (z : Option String) : Keyboard :=
  { kb with keys := listModifyKey kb.keys i fun k => { k with zIndex := z } }

/-- Embeds a factory's `key.position.x = x` write on a key returned by
`addKey`. -/
def Keyboard.setKeyPosX (kb : Keyboard) (i : Nat) (x : Int) : Keyboard :=
  { kb with keys := listModifyKey kb.keys i fun k =>
      { k with position := { k.position with x := x } } }

/-- Embeds a factory's `key.position.y += dy` write on a key returned by
`addKey`. -/
def Keyboard.addKeyPosY (kb : Keyboard) (i : Nat) (dy : Int) : Keyboard :=
  { kb with keys := listModifyKey kb.keys i fun k =>
      { k with position := { k.position with y := k.position.y + dy } } }

/-- Embeds a factory's read of `key.position.x` from a key returned by
`addKey`. -/
def Keyboard.keyPosX (kb : Keyboard) (i : Nat) : Int :=
  ((kb.keys[i]?).map fun k => k.position.x).getD 0

/-- Embeds a factory's `key.displayChar = c` write on a key obtained from
`getKey`. -/
def Keyboard.setKeyDisplayChar (kb : Keyboard) (i : Nat) (c : String) : Keyboard :=
  { kb with keys := listModifyKey kb.keys i fun k => { k with displayChar := c } }

/-- Embeds a factory's `key.keyCode = c` write on a key obtained from
`getKey`. -/
def Keyboard.setKeyCode (kb : Keyboard) (i : Nat) (c : String) : Keyboard :=
  { kb with keys := listModifyKey kb.keys i fun k => { k with keyCode := c } }

/-- Keycodes of a keyboard's keys, in placement order. -/
def Keyboard.keyCodes (kb : Keyboard) : List String :=
  kb.keys.map KeyShape.keyCode

/-- Embeds `KeyboardDefinitions.getWindowsLogitechKeyboard`: the Logitech Windows desktop layout. -/
def getWindowsLogitechKeyboard : Keyboard :=
  let kb := Keyboard.new
  let (kb, row) := kb.nextRow 0
  let (kb, row, _) := KeyboardRow.addKey kb row "Esc" "Escape"
  let row := KeyboardRow.addGap row 15
  let (kb, row, _) := KeyboardRow.addKey kb row "F1" "F1"
  let (kb, row, _) := KeyboardRow.addKey kb row "F2" "F2"
  let (kb, row, _) := KeyboardRow.addKey kb row "F3" "F3"
  let (kb, row, _) := KeyboardRow.addKey kb row "F4" "F4"
  let row := KeyboardRow.addGap row 15
  let (kb, row, _) := KeyboardRow.addKey kb row "F5" "F5"
  let (kb, row, _) := KeyboardRow.addKey kb row "F6" "F6"
  let (kb, row, _) := KeyboardRow.addKey kb row "F7" "F7"
  let (kb, row, _) := KeyboardRow.addKey kb row "F8" "F8"
  let row := KeyboardRow.addGap row 15
  let (kb, row, _) := KeyboardRow.addKey kb row "F9" "F9"
  let (kb, row, _) := KeyboardRow.addKey kb row "F10" "F10"
  let (kb, row, _) := KeyboardRow.addKey kb row "F11" "F11"
  let (kb, row, _) := KeyboardRow.addKey kb row "F12" "F12"
  let row := KeyboardRow.addGap row 10
  let (kb, row, _) := KeyboardRow.addKey kb row "prsc" "f13"
  let (kb, row, _) := KeyboardRow.addKey kb row "sclk" "ScrollLock"
  let (kb, row, _) := KeyboardRow.addKey kb row "pause" "Pause"
  let (kb, row) := kb.nextRow 5
  let (kb, row, _) := KeyboardRow.addKeyWS kb row "`" "Backquote" none "~"
  let (kb, row, _) := KeyboardRow.addKeyWS kb row "1" "Digit1" none "!"
  let (kb, row, _) := KeyboardRow.addKeyWS kb row "2" "Digit2" none "@"
  let (kb, row, _) := KeyboardRow.addKeyWS kb row "3" "Digit3" none "#"
  let (kb, row, _) := KeyboardRow.addKeyWS kb row "4" "Digit4" none "$"
  let (kb, row, _) := KeyboardRow.addKeyWS kb row "5" "Digit5" none "%"
  let (kb, row, _) := KeyboardRow.addKeyWS kb row "6" "Digit6" none "^"
  let (kb, row, _) := KeyboardRow.addKeyWS kb row "7" "Digit7" none "&"
  let (kb, row, _) := KeyboardRow.addKeyWS kb row "8" "Digit8" none "*"
  let (kb, row, _) := KeyboardRow.addKeyWS kb row "9" "Digit9" none "("
  let (kb, row, _) := KeyboardRow.addKeyWS kb row "0" "Digit0" none ")"
  let (kb, row, _) := KeyboardRow.addKeyWS kb row "-" "Minus" none "_"
  let (kb, row, _) := KeyboardRow.addKeyWS kb row "=" "Equal" none "+"
  let (kb, row, _) := KeyboardRow.addKeyW kb row "Backspace" "Backspace" 45
  let row := KeyboardRow.addGap row 10
  let (kb, row, _) := KeyboardRow.addKey kb row "ins" "Insert"
  let (kb, row, _) := KeyboardRow.addKey kb row "home" "Home"
  let (kb, row, _) := KeyboardRow.addKey kb row "pgup" "PageUp"
  let row := KeyboardRow.addGap row 10
  let (kb, row, _) := KeyboardRow.addKey kb row "numlock" "NumLock"
  let (kb, row, _) := KeyboardRow.addKey kb row "/" "NumpadDivide"
  let (kb, row, _) := KeyboardRow.addKey kb row "*" "NumpadMultiply"
  let (kb, row, _) := KeyboardRow.addKey kb row "-" "NumpadSubtract"
  let (kb, row) := kb.nextRow 0
  let (kb, row, _) := KeyboardRow.addKeyW kb row "Tab" "Tab" 30
  let (kb, row, _) := KeyboardRow.addKey kb row "q" "KeyQ"
  let (kb, row, _) := KeyboardRow.addKey kb row "w" "KeyW"
  let (kb, row, _) := KeyboardRow.addKey kb row "e" "KeyE"
  let (kb, row, _) := KeyboardRow.addKey kb row "r" "KeyR"
  let (kb, row, _) := KeyboardRow.addKey kb row "t" "KeyT"
  let (kb, row, _) := KeyboardRow.addKey kb row "y" "KeyY"
  let (kb, row, _) := KeyboardRow.addKey kb row "u" "KeyU"
  let (kb, row, _) := KeyboardRow.addKey kb row "i" "KeyI"
  let (kb, row, _) := KeyboardRow.addKey kb row "o" "KeyO"
  let (kb, row, _) := KeyboardRow.addKey kb row "p" "KeyP"
  let (kb, row, _) := KeyboardRow.addKey kb row "[" "BracketLeft"
  let (kb, row, _) := KeyboardRow.addKey kb row "]" "BracketRight"
  let (kb, row, _) := KeyboardRow.addKeyW kb row "\\" "Backslash" 35
  let row := KeyboardRow.addGap row 10
  let (kb, row, _) := KeyboardRow.addKey kb row "del" "Delete"
  let (kb, row, _) := KeyboardRow.addKey kb row "end" "End"
  let (kb, row, _) := KeyboardRow.addKey kb row "pgdn" "PageDown"
  let row := KeyboardRow.addGap row 10
  let (kb, row, _) := KeyboardRow.addKey kb row "7" "Numpad7"
  let (kb, row, _) := KeyboardRow.addKey kb row "8" "Numpad8"
  let (kb, row, _) := KeyboardRow.addKey kb row "9" "Numpad9"
  let (kb, row, iAddKey) := KeyboardRow.addKey kb row "+" "NumpadAdd"
  let kb := kb.setKeyHeight iAddKey (some (kb.keySize.height * 2))
  let (kb, row) := kb.nextRow 0
  let (kb, row, _) := KeyboardRow.addKeyW kb row "Caps" "CapsLock" 35
  let (kb, row, _) := KeyboardRow.addKey kb row "a" "KeyA"
  let (kb, row, _) := KeyboardRow.addKey kb row "s" "KeyS"
  let (kb, row, _) := KeyboardRow.addKey kb row "d" "KeyD"
  let (kb, row, _) := KeyboardRow.addKey kb row "f" "KeyF"
  let (kb, row, _) := KeyboardRow.addKey kb row "g" "KeyG"
  let (kb, row, _) := KeyboardRow.addKey kb row "h" "KeyH"
  let (kb, row, _) := KeyboardRow.addKey kb row "j" "KeyJ"
  let (kb, row, _) := KeyboardRow.addKey kb row "k" "KeyK"
  let (kb, row, _) := KeyboardRow.addKey kb row "l" "KeyL"
  let (kb, row, _) := KeyboardRow.addKeyWS kb row ";" "Semicolon" none ":"
  let (kb, row, _) := KeyboardRow.addKeyWS kb row "'" "Quote" none "\""
  let (kb, row, _) := KeyboardRow.addKeyW kb row "Enter" "Enter" 50
  let row := KeyboardRow.addGap row 80
  let (kb, row, _) := KeyboardRow.addKey kb row "4" "Numpad4"
  let (kb, row, _) := KeyboardRow.addKey kb row "5" "Numpad5"
  let (kb, row, _) := KeyboardRow.addKey kb row "6" "Numpad6"
  let (kb, row) := kb.nextRow 0
  let (kb, row, _) := KeyboardRow.addKeyW kb row "Shift" "ShiftLeft" 45
  let (kb, row, _) := KeyboardRow.addKey kb row "z" "KeyZ"
  let (kb, row, _) := KeyboardRow.addKey kb row "x" "KeyX"
  let (kb, row, _) := KeyboardRow.addKey kb row "c" "KeyC"
  let (kb, row, _) := KeyboardRow.addKey kb row "v" "KeyV"
  let (kb, row, _) := KeyboardRow.addKey kb row "b" "KeyB"
  let (kb, row, _) := KeyboardRow.addKey kb row "n" "KeyN"
  let (kb, row, _) := KeyboardRow.addKey kb row "m" "KeyM"
  let (kb, row, _) := KeyboardRow.addKeyWS kb row "," "Comma" none "<"
  let (kb, row, _) := KeyboardRow.addKeyWS kb row "." "Period" none ">"
  let (kb, row, _) := KeyboardRow.addKeyWS kb row "/" "Slash" none "?"
  let (kb, row, _) := KeyboardRow.addKeyW kb row "Shift" "ShiftRight" 60
  let row := KeyboardRow.addGap row 10
  let row := KeyboardRow.addGap row 20
  let (kb, row, _) := KeyboardRow.addKey kb row "↑" "ArrowUp"
  let row := KeyboardRow.addGap row 20
  let row := KeyboardRow.addGap row 10
  let (kb, row, _) := KeyboardRow.addKey kb row "1" "Numpad1"
  let (kb, row, _) := KeyboardRow.addKey kb row "2" "Numpad2"
  let (kb, row, _) := KeyboardRow.addKey kb row "3" "Numpad3"
  let (kb, row, iEnterKey) := KeyboardRow.addKey kb row "Enter" "NumpadEnter"
  let kb := kb.setKeyHeight iEnterKey (some (kb.keySize.height * 2))
  let (kb, row) := kb.nextRow 0
  let (kb, row, _) := KeyboardRow.addKeyW kb row "Ctrl" "ControlLeft" 30
  let (kb, row, _) := KeyboardRow.addKeyW kb row "Win" "MetaLeft" 25
  let (kb, row, _) := KeyboardRow.addKeyW kb row "Alt" "AltLeft" 25
  let (kb, row, _) := KeyboardRow.addKeyW kb row "space" "Space" 120
  let (kb, row, _) := KeyboardRow.addKeyW kb row "Alt" "AltRight" 30
  let (kb, row, _) := KeyboardRow.addKeyW kb row "Menu" "ContextMenu" 35
  let (kb, row, _) := KeyboardRow.addKeyW kb row "Ctrl" "ControlRight" 40
  let row := KeyboardRow.addGap row 10
  let (kb, row, _) := KeyboardRow.addKey kb row "←" "ArrowLeft"
  let (kb, row, _) := KeyboardRow.addKey kb row "↓" "ArrowDown"
  let (kb, row, _) := KeyboardRow.addKey kb row "→" "ArrowRight"
  let row := KeyboardRow.addGap row 10
  let (kb, row, _) := KeyboardRow.addKeyW kb row "0" "Numpad0" 40
  let (kb, row, _) := KeyboardRow.addKey kb row "." "NumpadDecimal"
  kb

/-- Embeds `KeyboardDefinitions.getWindowsHPDesktopKeyboard`: the low-end HP desktop layout. -/
def getWindowsHPDesktopKeyboard : Keyboard :=
  let kb := Keyboard.new
  let (kb, row) := kb.nextRow 0
  let (kb, row, _) := KeyboardRow.addKey kb row "Esc" "Escape"
  let row := KeyboardRow.addGap row 19
  let (kb, row, _) := KeyboardRow.addKey kb row "F1" "F1"
  let (kb, row, _) := KeyboardRow.addKey kb row "F2" "F2"
  let (kb, row, _) := KeyboardRow.addKey kb row "F3" "F3"
  let (kb, row, _) := KeyboardRow.addKey kb row "F4" "F4"
  let row := KeyboardRow.addGap row 13
  let (kb, row, _) := KeyboardRow.addKey kb row "F5" "F5"
  let (kb, row, _) := KeyboardRow.addKey kb row "F6" "F6"
  let (kb, row, _) := KeyboardRow.addKey kb row "F7" "F7"
  let (kb, row, _) := KeyboardRow.addKey kb row "F8" "F8"
  let row := KeyboardRow.addGap row 13
  let (kb, row, _) := KeyboardRow.addKey kb row "F9" "F9"
  let (kb, row, _) := KeyboardRow.addKey kb row "F10" "F10"
  let (kb, row, _) := KeyboardRow.addKey kb row "F11" "F11"
  let (kb, row, _) := KeyboardRow.addKey kb row "F12" "F12"
  let row := KeyboardRow.addGap row 10
  let (kb, row, _) := KeyboardRow.addKey kb row "prsc" "f13"
  let (kb, row, _) := KeyboardRow.addKey kb row "sclk" "ScrollLock"
  let (kb, row, _) := KeyboardRow.addKey kb row "pause" "Pause"
  let (kb, row) := kb.nextRow 5
  let (kb, row, _) := KeyboardRow.addKeyWS kb row "`" "Backquote" none "~"
  let (kb, row, _) := KeyboardRow.addKeyWS kb row "1" "Digit1" none "!"
  let (kb, row, _) := KeyboardRow.addKeyWS kb row "2" "Digit2" none "@"
  let (kb, row, _) := KeyboardRow.addKeyWS kb row "3" "Digit3" none "#"
  let (kb, row, _) := KeyboardRow.addKeyWS kb row "4" "Digit4" none "$"
  let (kb, row, _) := KeyboardRow.addKeyWS kb row "5" "Digit5" none "%"
  let (kb, row, _) := KeyboardRow.addKeyWS kb row "6" "Digit6" none "^"
  let (kb, row, _) := KeyboardRow.addKeyWS kb row "7" "Digit7" none "&"
  let (kb, row, _) := KeyboardRow.addKeyWS kb row "8" "Digit8" none "*"
  let (kb, row, _) := KeyboardRow.addKeyWS kb row "9" "Digit9" none "("
  let (kb, row, _) := KeyboardRow.addKeyWS kb row "0" "Digit0" none ")"
  let (kb, row, _) := KeyboardRow.addKeyWS kb row "-" "Minus" none "_"
  let (kb, row, _) := KeyboardRow.addKeyWS kb row "=" "Equal" none "+"
  let (kb, row, _) := KeyboardRow.addKeyW kb row "Backspace" "Backspace" 45
  let row := KeyboardRow.addGap row 10
  let (kb, row, _) := KeyboardRow.addKey kb row "ins" "Insert"
  let (kb, row, _) := KeyboardRow.addKey kb row "home" "Home"
  let (kb, row, _) := KeyboardRow.addKey kb row "pgup" "PageUp"
  let row := KeyboardRow.addGap row 10
  let (kb, row, _) := KeyboardRow.addKey kb row "numlock" "NumLock"
  let (kb, row, _) := KeyboardRow.addKey kb row "/" "NumpadDivide"
  let (kb, row, _) := KeyboardRow.addKey kb row "*" "NumpadMultiply"
  let (kb, row, _) := KeyboardRow.addKey kb row "-" "NumpadSubtract"
  let (kb, row) := kb.nextRow 0
  let (kb, row, _) := KeyboardRow.addKeyW kb row "Tab" "Tab" 30
  let (kb, row, _) := KeyboardRow.addKey kb row "q" "KeyQ"
  let (kb, row, _) := KeyboardRow.addKey kb row "w" "KeyW"
  let (kb, row, _) := KeyboardRow.addKey kb row "e" "KeyE"
  let (kb, row, _) := KeyboardRow.addKey kb row "r" "KeyR"
  let (kb, row, _) := KeyboardRow.addKey kb row "t" "KeyT"
  let (kb, row, _) := KeyboardRow.addKey kb row "y" "KeyY"
  let (kb, row, _) := KeyboardRow.addKey kb row "u" "KeyU"
  let (kb, row, _) := KeyboardRow.addKey kb row "i" "KeyI"
  let (kb, row, _) := KeyboardRow.addKey kb row "o" "KeyO"
  let (kb, row, _) := KeyboardRow.addKey kb row "p" "KeyP"
  let (kb, row, _) := KeyboardRow.addKey kb row "[" "BracketLeft"
  let (kb, row, _) := KeyboardRow.addKey kb row "]" "BracketRight"
  let (kb, row, _) := KeyboardRow.addKeyW kb row "\\" "Backslash" 35
  let row := KeyboardRow.addGap row 10
  let (kb, row, _) := KeyboardRow.addKey kb row "del" "Delete"
  let (kb, row, _) := KeyboardRow.addKey kb row "end" "End"
  let (kb, row, _) := KeyboardRow.addKey kb row "pgdn" "PageDown"
  let row := KeyboardRow.addGap row 10
  let (kb, row, _) := KeyboardRow.addKey kb row "7" "Numpad7"
  let (kb, row, _) := KeyboardRow.addKey kb row "8" "Numpad8"
  let (kb, row, _) := KeyboardRow.addKey kb row "9" "Numpad9"
  let (kb, row, iAddKey) := KeyboardRow.addKey kb row "+" "NumpadAdd"
  let kb := kb.setKeyHeight iAddKey (some (kb.keySize.height * 2))
  let (kb, row) := kb.nextRow 0
  let (kb, row, _) := KeyboardRow.addKeyW kb row "Caps" "CapsLock" 35
  let (kb, row, _) := KeyboardRow.addKey kb row "a" "KeyA"
  let (kb, row, _) := KeyboardRow.addKey kb row "s" "KeyS"
  let (kb, row, _) := KeyboardRow.addKey kb row "d" "KeyD"
  let (kb, row, _) := KeyboardRow.addKey kb row "f" "KeyF"
  let (kb, row, _) := KeyboardRow.addKey kb row "g" "KeyG"
  let (kb, row, _) := KeyboardRow.addKey kb row "h" "KeyH"
  let (kb, row, _) := KeyboardRow.addKey kb row "j" "KeyJ"
  let (kb, row, _) := KeyboardRow.addKey kb row "k" "KeyK"
  let (kb, row, _) := KeyboardRow.addKey kb row "l" "KeyL"
  let (kb, row, _) := KeyboardRow.addKeyWS kb row ";" "Semicolon" none ":"
  let (kb, row, _) := KeyboardRow.addKeyWS kb row "'" "Quote" none "\""
  let (kb, row, _) := KeyboardRow.addKeyW kb row "Enter" "Enter" 50
  let row := KeyboardRow.addGap row 10
  let row := KeyboardRow.addGap row 60
  let row := KeyboardRow.addGap row 10
  let (kb, row, _) := KeyboardRow.addKey kb row "4" "Numpad4"
  let (kb, row, _) := KeyboardRow.addKey kb row "5" "Numpad5"
  let (kb, row, _) := KeyboardRow.addKey kb row "6" "Numpad6"
  let (kb, row) := kb.nextRow 0
  let (kb, row, _) := KeyboardRow.addKeyW kb row "Shift" "ShiftLeft" 45
  let (kb, row, _) := KeyboardRow.addKey kb row "z" "KeyZ"
  let (kb, row, _) := KeyboardRow.addKey kb row "x" "KeyX"
  let (kb, row, _) := KeyboardRow.addKey kb row "c" "KeyC"
  let (kb, row, _) := KeyboardRow.addKey kb row "v" "KeyV"
  let (kb, row, _) := KeyboardRow.addKey kb row "b" "KeyB"
  let (kb, row, _) := KeyboardRow.addKey kb row "n" "KeyN"
  let (kb, row, _) := KeyboardRow.addKey kb row "m" "KeyM"
  let (kb, row, _) := KeyboardRow.addKeyWS kb row "," "Comma" none "<"
  let (kb, row, _) := KeyboardRow.addKeyWS kb row "." "Period" none ">"
  let (kb, row, _) := KeyboardRow.addKeyWS kb row "/" "Slash" none "?"
  let (kb, row, _) := KeyboardRow.addKeyW kb row "Shift" "ShiftRight" 60
  let row := KeyboardRow.addGap row 10
  let row := KeyboardRow.addGap row 20
  let (kb, row, _) := KeyboardRow.addKey kb row "↑" "ArrowUp"
  let row := KeyboardRow.addGap row 20
  let row := KeyboardRow.addGap row 10
  let (kb, row, _) := KeyboardRow.addKey kb row "1" "Numpad1"
  let (kb, row, _) := KeyboardRow.addKey kb row "2" "Numpad2"
  let (kb, row, _) := KeyboardRow.addKey kb row "3" "Numpad3"
  let (kb, row, iEnterKey) := KeyboardRow.addKey kb row "Enter" "NumpadEnter"
  let kb := kb.setKeyHeight iEnterKey (some (kb.keySize.height * 2))
  let (kb, row) := kb.nextRow 0
  let (kb, row, _) := KeyboardRow.addKeyW kb row "Ctrl" "ControlLeft" 30
  let (kb, row, _) := KeyboardRow.addKeyW kb row "Win" "MetaLeft" 25
  let (kb, row, _) := KeyboardRow.addKeyW kb row "Alt" "AltLeft" 25
  let (kb, row, _) := KeyboardRow.addKeyW kb row "space" "Space" 115
  let (kb, row, _) := KeyboardRow.addKeyW kb row "Alt" "AltRight" 25
  let (kb, row, _) := KeyboardRow.addKeyW kb row "Win" "MetaRight" 25
  let (kb, row, _) := KeyboardRow.addKeyW kb row "Menu" "ContextMenu" 25
  let (kb, row, _) := KeyboardRow.addKeyW kb row "Ctrl" "ControlRight" 35
  let row := KeyboardRow.addGap row 10
  let (kb, row, _) := KeyboardRow.addKey kb row "←" "ArrowLeft"
  let (kb, row, _) := KeyboardRow.addKey kb row "↓" "ArrowDown"
  let (kb, row, _) := KeyboardRow.addKey kb row "→" "ArrowRight"
  let row := KeyboardRow.addGap row 10
  let (kb, row, _) := KeyboardRow.addKeyW kb row "0" "Numpad0" 40
  let (kb, row, _) := KeyboardRow.addKey kb row "." "NumpadDecimal"
  kb

/-- Embeds `KeyboardDefinitions.getWindowsGenericKeyboard`: the cheap generic Windows layout. -/
def getWindowsGenericKeyboard : Keyboard :=
  let kb := Keyboard.new
  let (kb, row) := kb.nextRow 0
  let (kb, row, _) := KeyboardRow.addKey kb row "Esc" "Escape"
  let row := KeyboardRow.addGap row 19
  let (kb, row, _) := KeyboardRow.addKey kb row "F1" "F1"
  let (kb, row, _) := KeyboardRow.addKey kb row "F2" "F2"
  let (kb, row, _) := KeyboardRow.addKey kb row "F3" "F3"
  let (kb, row, _) := KeyboardRow.addKey kb row "F4" "F4"
  let row := KeyboardRow.addGap row 13
  let (kb, row, _) := KeyboardRow.addKey kb row "F5" "F5"
  let (kb, row, _) := KeyboardRow.addKey kb row "F6" "F6"
  let (kb, row, _) := KeyboardRow.addKey kb row "F7" "F7"
  let (kb, row, _) := KeyboardRow.addKey kb row "F8" "F8"
  let row := KeyboardRow.addGap row 13
  let (kb, row, _) := KeyboardRow.addKey kb row "F9" "F9"
  let (kb, row, _) := KeyboardRow.addKey kb row "F10" "F10"
  let (kb, row, _) := KeyboardRow.addKey kb row "F11" "F11"
  let (kb, row, _) := KeyboardRow.addKey kb row "F12" "F12"
  let row := KeyboardRow.addGap row 10
  let (kb, row, _) := KeyboardRow.addKey kb row "Power" "Power"
  let (kb, row, _) := KeyboardRow.addKey kb row "Sleep" "Sleep"
  let (kb, row, _) := KeyboardRow.addKey kb row "Wake" "Wake"
  let (kb, row) := kb.nextRow 5
  let (kb, row, _) := KeyboardRow.addKeyWS kb row "`" "Backquote" none "~"
  let (kb, row, _) := KeyboardRow.addKeyWS kb row "1" "Digit1" none "!"
  let (kb, row, _) := KeyboardRow.addKeyWS kb row "2" "Digit2" none "@"
  let (kb, row, _) := KeyboardRow.addKeyWS kb row "3" "Digit3" none "#"
  let (kb, row, _) := KeyboardRow.addKeyWS kb row "4" "Digit4" none "$"
  let (kb, row, _) := KeyboardRow.addKeyWS kb row "5" "Digit5" none "%"
  let (kb, row, _) := KeyboardRow.addKeyWS kb row "6" "Digit6" none "^"
  let (kb, row, _) := KeyboardRow.addKeyWS kb row "7" "Digit7" none "&"
  let (kb, row, _) := KeyboardRow.addKeyWS kb row "8" "Digit8" none "*"
  let (kb, row, _) := KeyboardRow.addKeyWS kb row "9" "Digit9" none "("
  let (kb, row, _) := KeyboardRow.addKeyWS kb row "0" "Digit0" none ")"
  let (kb, row, _) := KeyboardRow.addKeyWS kb row "-" "Minus" none "_"
  let (kb, row, _) := KeyboardRow.addKeyWS kb row "=" "Equal" none "+"
  let (kb, row, _) := KeyboardRow.addKeyW kb row "Backspace" "Backspace" 45
  let row := KeyboardRow.addGap row 10
  let (kb, row, _) := KeyboardRow.addKey kb row "prsc" "f13"
  let (kb, row, _) := KeyboardRow.addKey kb row "sclk" "ScrollLock"
  let (kb, row, _) := KeyboardRow.addKey kb row "pause" "Pause"
  let row := KeyboardRow.addGap row 10
  let (kb, row, _) := KeyboardRow.addKey kb row "numlock" "NumLock"
  let (kb, row, _) := KeyboardRow.addKey kb row "/" "NumpadDivide"
  let (kb, row, _) := KeyboardRow.addKey kb row "*" "NumpadMultiply"
  let (kb, row, _) := KeyboardRow.addKey kb row "-" "NumpadSubtract"
  let (kb, row) := kb.nextRow 0
  let (kb, row, _) := KeyboardRow.addKeyW kb row "Tab" "Tab" 30
  let (kb, row, _) := KeyboardRow.addKey kb row "q" "KeyQ"
  let (kb, row, _) := KeyboardRow.addKey kb row "w" "KeyW"
  let (kb, row, _) := KeyboardRow.addKey kb row "e" "KeyE"
  let (kb, row, _) := KeyboardRow.addKey kb row "r" "KeyR"
  let (kb, row, _) := KeyboardRow.addKey kb row "t" "KeyT"
  let (kb, row, _) := KeyboardRow.addKey kb row "y" "KeyY"
  let (kb, row, _) := KeyboardRow.addKey kb row "u" "KeyU"
  let (kb, row, _) := KeyboardRow.addKey kb row "i" "KeyI"
  let (kb, row, _) := KeyboardRow.addKey kb row "o" "KeyO"
  let (kb, row, _) := KeyboardRow.addKey kb row "p" "KeyP"
  let (kb, row, _) := KeyboardRow.addKey kb row "[" "BracketLeft"
  let (kb, row, _) := KeyboardRow.addKey kb row "]" "BracketRight"
  let (kb, row, iEnterKey) := KeyboardRow.addKeyW kb row "enter" "Enter" 35
  let kb := kb.setKeyHeight iEnterKey (some (kb.keySize.height * 2))
  let kb := kb.setKeyZIndex iEnterKey (some "0")
  let row := KeyboardRow.addGap row 10
  let (kb, row, _) := KeyboardRow.addKey kb row "ins" "Insert"
  let (kb, row, _) := KeyboardRow.addKey kb row "home" "Home"
  let (kb, row, _) := KeyboardRow.addKey kb row "pgup" "PageUp"
  let row := KeyboardRow.addGap row 10
  let (kb, row, _) := KeyboardRow.addKey kb row "7" "Numpad7"
  let (kb, row, _) := KeyboardRow.addKey kb row "8" "Numpad8"
  let (kb, row, _) := KeyboardRow.addKey kb row "9" "Numpad9"
  let (kb, row, iAddKey) := KeyboardRow.addKey kb row "+" "NumpadAdd"
  let kb := kb.setKeyHeight iAddKey (some (kb.keySize.height * 2))
  let (kb, row) := kb.nextRow 0
  let (kb, row, _) := KeyboardRow.addKeyW kb row "Caps" "CapsLock" 35
  let (kb, row, _) := KeyboardRow.addKey kb row "a" "KeyA"
  let (kb, row, _) := KeyboardRow.addKey kb row "s" "KeyS"
  let (kb, row, _) := KeyboardRow.addKey kb row "d" "KeyD"
  let (kb, row, _) := KeyboardRow.addKey kb row "f" "KeyF"
  let (kb, row, _) := KeyboardRow.addKey kb row "g" "KeyG"
  let (kb, row, _) := KeyboardRow.addKey kb row "h" "KeyH"
  let (kb, row, _) := KeyboardRow.addKey kb row "j" "KeyJ"
  let (kb, row, _) := KeyboardRow.addKey kb row "k" "KeyK"
  let (kb, row, _) := KeyboardRow.addKey kb row "l" "KeyL"
  let (kb, row, _) := KeyboardRow.addKeyWS kb row ";" "Semicolon" none ":"
  let (kb, row, _) := KeyboardRow.addKeyWS kb row "'" "Quote" none "\""
  let (kb, row, _) := KeyboardRow.addKey kb row "\\" "Backslash"
  let row := KeyboardRow.addGap row 30
  let row := KeyboardRow.addGap row 10
  let (kb, row, _) := KeyboardRow.addKey kb row "del" "Delete"
  let (kb, row, _) := KeyboardRow.addKey kb row "end" "End"
  let (kb, row, _) := KeyboardRow.addKey kb row "pgdn" "PageDown"
  let row := KeyboardRow.addGap row 10
  let (kb, row, _) := KeyboardRow.addKey kb row "4" "Numpad4"
  let (kb, row, _) := KeyboardRow.addKey kb row "5" "Numpad5"
  let (kb, row, _) := KeyboardRow.addKey kb row "6" "Numpad6"
  let (kb, row) := kb.nextRow 0
  let (kb, row, _) := KeyboardRow.addKeyW kb row "Shift" "ShiftLeft" 45
  let (kb, row, _) := KeyboardRow.addKey kb row "z" "KeyZ"
  let (kb, row, _) := KeyboardRow.addKey kb row "x" "KeyX"
  let (kb, row, _) := KeyboardRow.addKey kb row "c" "KeyC"
  let (kb, row, _) := KeyboardRow.addKey kb row "v" "KeyV"
  let (kb, row, _) := KeyboardRow.addKey kb row "b" "KeyB"
  let (kb, row, _) := KeyboardRow.addKey kb row "n" "KeyN"
  let (kb, row, _) := KeyboardRow.addKey kb row "m" "KeyM"
  let (kb, row, _) := KeyboardRow.addKeyWS kb row "," "Comma" none "<"
  let (kb, row, _) := KeyboardRow.addKeyWS kb row "." "Period" none ">"
  let (kb, row, _) := KeyboardRow.addKeyWS kb row "/" "Slash" none "?"
  let (kb, row, _) := KeyboardRow.addKeyW kb row "Shift" "ShiftRight" 60
  let row := KeyboardRow.addGap row 10
  let row := KeyboardRow.addGap row 20
  let (kb, row, _) := KeyboardRow.addKey kb row "↑" "ArrowUp"
  let row := KeyboardRow.addGap row 20
  let row := KeyboardRow.addGap row 10
  let (kb, row, _) := KeyboardRow.addKey kb row "1" "Numpad1"
  let (kb, row, _) := KeyboardRow.addKey kb row "2" "Numpad2"
  let (kb, row, _) := KeyboardRow.addKey kb row "3" "Numpad3"
  let (kb, row, iEnterKey) := KeyboardRow.addKey kb row "Enter" "NumpadEnter"
  let kb := kb.setKeyHeight iEnterKey (some (kb.keySize.height * 2))
  let (kb, row) := kb.nextRow 0
  let (kb, row, _) := KeyboardRow.addKeyW kb row "Ctrl" "ControlLeft" 30
  let (kb, row, _) := KeyboardRow.addKeyW kb row "Win" "MetaLeft" 25
  let (kb, row, _) := KeyboardRow.addKeyW kb row "Alt" "AltLeft" 25
  let (kb, row, _) := KeyboardRow.addKeyW kb row "space" "Space" 115
  let (kb, row, _) := KeyboardRow.addKeyW kb row "Alt" "AltRight" 25
  let (kb, row, _) := KeyboardRow.addKeyW kb row "Win" "MetaRight" 25
  let (kb, row, _) := KeyboardRow.addKeyW kb row "Menu" "ContextMenu" 25
  let (kb, row, _) := KeyboardRow.addKeyW kb row "Ctrl" "ControlRight" 35
  let row := KeyboardRow.addGap row 10
  let (kb, row, _) := KeyboardRow.addKey kb row "←" "ArrowLeft"
  let (kb, row, _) := KeyboardRow.addKey kb row "↓" "ArrowDown"
  let (kb, row, _) := KeyboardRow.addKey kb row "→" "ArrowRight"
  let row := KeyboardRow.addGap row 10
  let (kb, row, _) := KeyboardRow.addKeyW kb row "0" "Numpad0" 40
  let (kb, row, _) := KeyboardRow.addKey kb row "." "NumpadDecimal"
  kb

/-- Embeds `KeyboardDefinitions.getMacBookProKeyboard`: the MacBook Pro 2008+ layout. -/
def getMacBookProKeyboard : Keyboard :=
  let kb := Keyboard.new
  let (kb, row) := kb.nextRow 0
  let (kb, row, _) := KeyboardRow.addKeyW kb row "Esc" "Escape" 30
  let (kb, row, _) := KeyboardRow.addKey kb row "F1" "F1"
  let (kb, row, _) := KeyboardRow.addKey kb row "F2" "F2"
  let (kb, row, _) := KeyboardRow.addKey kb row "F3" "F3"
  let (kb, row, _) := KeyboardRow.addKey kb row "F4" "F4"
  let (kb, row, _) := KeyboardRow.addKey kb row "F5" "F5"
  let (kb, row, _) := KeyboardRow.addKey kb row "F6" "F6"
  let (kb, row, _) := KeyboardRow.addKey kb row "F7" "F7"
  let (kb, row, _) := KeyboardRow.addKey kb row "F8" "F8"
  let (kb, row, _) := KeyboardRow.addKey kb row "F9" "F9"
  let (kb, row, _) := KeyboardRow.addKey kb row "F10" "F10"
  let (kb, row, _) := KeyboardRow.addKey kb row "F11" "F11"
  let (kb, row, _) := KeyboardRow.addKey kb row "F12" "F12"
  let (kb, row, _) := KeyboardRow.addKeyW kb row "F13" "f13" 25
  let (kb, row) := kb.nextRow 5
  let (kb, row, _) := KeyboardRow.addKeyWS kb row "`" "Backquote" none "~"
  let (kb, row, _) := KeyboardRow.addKeyWS kb row "1" "Digit1" none "!"
  let (kb, row, _) := KeyboardRow.addKeyWS kb row "2" "Digit2" none "@"
  let (kb, row, _) := KeyboardRow.addKeyWS kb row "3" "Digit3" none "#"
  let (kb, row, _) := KeyboardRow.addKeyWS kb row "4" "Digit4" none "$"
  let (kb, row, _) := KeyboardRow.addKeyWS kb row "5" "Digit5" none "%"
  let (kb, row, _) := KeyboardRow.addKeyWS kb row "6" "Digit6" none "^"
  let (kb, row, _) := KeyboardRow.addKeyWS kb row "7" "Digit7" none "&"
  let (kb, row, _) := KeyboardRow.addKeyWS kb row "8" "Digit8" none "*"
  let (kb, row, _) := KeyboardRow.addKeyWS kb row "9" "Digit9" none "("
  let (kb, row, _) := KeyboardRow.addKeyWS kb row "0" "Digit0" none ")"
  let (kb, row, _) := KeyboardRow.addKeyWS kb row "-" "Minus" none "_"
  let (kb, row, _) := KeyboardRow.addKeyWS kb row "=" "Equal" none "+"
  let (kb, row, _) := KeyboardRow.addKeyW kb row "delete" "Backspace" 35
  let (kb, row) := kb.nextRow 0
  let (kb, row, _) := KeyboardRow.addKeyW kb row "tab" "Tab" 30
  let (kb, row, _) := KeyboardRow.addKey kb row "q" "KeyQ"
  let (kb, row, _) := KeyboardRow.addKey kb row "w" "KeyW"
  let (kb, row, _) := KeyboardRow.addKey kb row "e" "KeyE"
  let (kb, row, _) := KeyboardRow.addKey kb row "r" "KeyR"
  let (kb, row, _) := KeyboardRow.addKey kb row "t" "KeyT"
  let (kb, row, _) := KeyboardRow.addKey kb row "y" "KeyY"
  let (kb, row, _) := KeyboardRow.addKey kb row "u" "KeyU"
  let (kb, row, _) := KeyboardRow.addKey kb row "i" "KeyI"
  let (kb, row, _) := KeyboardRow.addKey kb row "o" "KeyO"
  let (kb, row, _) := KeyboardRow.addKey kb row "p" "KeyP"
  let (kb, row, _) := KeyboardRow.addKey kb row "[" "BracketLeft"
  let (kb, row, _) := KeyboardRow.addKey kb row "]" "BracketRight"
  let (kb, row, _) := KeyboardRow.addKeyWS kb row "\\" "Backslash" (some 25) "|"
  let (kb, row) := kb.nextRow 0
  let (kb, row, _) := KeyboardRow.addKeyW kb row "caps" "CapsLock" 35
  let (kb, row, _) := KeyboardRow.addKey kb row "a" "KeyA"
  let (kb, row, _) := KeyboardRow.addKey kb row "s" "KeyS"
  let (kb, row, _) := KeyboardRow.addKey kb row "d" "KeyD"
  let (kb, row, _) := KeyboardRow.addKey kb row "f" "KeyF"
  let (kb, row, _) := KeyboardRow.addKey kb row "g" "KeyG"
  let (kb, row, _) := KeyboardRow.addKey kb row "h" "KeyH"
  let (kb, row, _) := KeyboardRow.addKey kb row "j" "KeyJ"
  let (kb, row, _) := KeyboardRow.addKey kb row "k" "KeyK"
  let (kb, row, _) := KeyboardRow.addKey kb row "l" "KeyL"
  let (kb, row, _) := KeyboardRow.addKeyWS kb row ";" "Semicolon" none ":"
  let (kb, row, _) := KeyboardRow.addKeyWS kb row "'" "Quote" none "\""
  let (kb, row, _) := KeyboardRow.addKeyW kb row "Return" "Enter" 40
  let (kb, row) := kb.nextRow 0
  let (kb, row, _) := KeyboardRow.addKeyW kb row "Shift" "ShiftLeft" 45
  let (kb, row, _) := KeyboardRow.addKey kb row "z" "KeyZ"
  let (kb, row, _) := KeyboardRow.addKey kb row "x" "KeyX"
  let (kb, row, _) := KeyboardRow.addKey kb row "c" "KeyC"
  let (kb, row, _) := KeyboardRow.addKey kb row "v" "KeyV"
  let (kb, row, _) := KeyboardRow.addKey kb row "b" "KeyB"
  let (kb, row, _) := KeyboardRow.addKey kb row "n" "KeyN"
  let (kb, row, _) := KeyboardRow.addKey kb row "m" "KeyM"
  let (kb, row, _) := KeyboardRow.addKeyWS kb row "," "Comma" none "<"
  let (kb, row, _) := KeyboardRow.addKeyWS kb row "." "Period" none ">"
  let (kb, row, _) := KeyboardRow.addKeyWS kb row "/" "Slash" none "?"
  let (kb, row, _) := KeyboardRow.addKeyW kb row "Shift" "ShiftRight" 50
  let (kb, row) := kb.nextRow 0
  let (kb, row, _) := KeyboardRow.addKeyW kb row "Fn" "Function" 20
  let (kb, row, _) := KeyboardRow.addKeyW kb row "⌃" "ControlLeft" 20
  let (kb, row, _) := KeyboardRow.addKeyW kb row "⌥" "AltLeft" 20
  let (kb, row, _) := KeyboardRow.addKeyW kb row "⌘" "MetaLeft" 25
  let (kb, row, _) := KeyboardRow.addKeyW kb row "space" "Space" 105
  let (kb, row, _) := KeyboardRow.addKeyW kb row "⌘" "MetaRight" 25
  let (kb, row, _) := KeyboardRow.addKeyW kb row "⌥" "AltRight" 20
  let (kb, row, iLeft) := KeyboardRow.addKey kb row "←" "ArrowLeft"
  let kb := kb.setKeyHeight iLeft (some 10)
  let (kb, row, iDown) := KeyboardRow.addKey kb row "↓" "ArrowDown"
  let kb := kb.setKeyHeight iDown (some 10)
  let (kb, row, iRight) := KeyboardRow.addKey kb row "→" "ArrowRight"
  let kb := kb.setKeyHeight iRight (some 10)
  let (kb, row, iUp) := KeyboardRow.addKey kb row "↑" "ArrowUp"
  let kb := kb.setKeyHeight iUp (some 10)
  let kb := kb.setKeyPosX iUp (kb.keyPosX iDown)
  let kb := kb.addKeyPosY iLeft 10
  let kb := kb.addKeyPosY iDown 10
  let kb := kb.addKeyPosY iRight 10
  kb

/-- Embeds `KeyboardDefinitions.getWindowsLogitech2Keyboard`: builds the base
Logitech layout, relabels the key found by `getKey('ContextMenu')` to
`Fn` / keycode `Fn`, and rebuilds the index with `remap()`. The JS writes
`fnKey.displayChar = ...` without a guard, which would throw a `TypeError` if
`getKey` had returned `undefined` or `null`; that fallible step is embedded as
`none`. -/
def getWindowsLogitech2Keyboard : Option Keyboard :=
  let kb := getWindowsLogitechKeyboard
  match (kb.getKey "ContextMenu").1 with
  | JSVal.obj i =>
    let kb := kb.setKeyDisplayChar i "Fn"
    let kb := kb.setKeyCode i "Fn"
    some kb.remap
  | JSVal.undef => none
  | JSVal.null => none

/-- A raw tracker event: the three entry points `onKeyDown` / `onKeyUp` /
`clear` with their identifier argument where they take one. -/
inductive Event where
  | down (code : String)
  | up (code : String)
  | clear
  deriving DecidableEq, Repr

/-- The identifier an event dispatches on (`none` for `clear`). -/
def Event.code? : Event → Option String
  | Event.down c => some c
  | Event.up c => some c
  | Event.clear => none

/-- Applies one event to the keyboard through the corresponding handler. -/
def Keyboard.applyEvent (kb : Keyboard) : Event → Keyboard
  | Event.down c => kb.onKeyDown c
  | Event.up c => kb.onKeyUp c
  | Event.clear => kb.clear

/-- Applies an ordered sequence of events, earliest first. -/
def Keyboard.applyEvents (kb : Keyboard) (es : List Event) : Keyboard :=
  es.foldl Keyboard.applyEvent kb

/-- Whether an event is relevant to a key with keycode `c`: a down/up event
for `c`, or a `clear` (which touches every key). -/
def relevantB (c : String) : Event → Bool
  | Event.down c2 => c2 == c
  | Event.up c2 => c2 == c
  | Event.clear => true

/-- The state an event forces onto the key it touches. -/
def eventTargetState : Event → KeyState
  | Event.down _ => KeyState.Down
  | Event.up _ => KeyState.Pressed
  | Event.clear => KeyState.NeverPressed

/-- The latest event in `es` (earliest first) relevant to keycode `c`. -/
def lastRelevant (c : String) : List Event → Option Event
  | [] => none
  | e :: rest =>
    match lastRelevant c rest with
    | some x => some x
    | none => if relevantB c e then some e else none

/-- The state of a key after its latest relevant event, starting from
`orig`. -/
def stateAfter (orig : KeyState) : Option Event → KeyState
  | none => orig
  | some e => eventTargetState e

/-- Consistency of `#map` with `keys`: every map entry points at a key in the
list that bears the entry's keycode. Holds for keyboards built by the layout
builder. -/
def Keyboard.WellFormed (kb : Keyboard) : Prop :=
  ∀ p ∈ kb.map, (kb.keys[p.2]?).map KeyShape.keyCode = some p.1

/-- Full consistency of `#map` with `keys`: well-formed, and in addition every
key is reachable in the map under its own keycode. Holds for keyboards built
by the layout builder whose keys have pairwise-distinct keycodes. -/
def Keyboard.FullyIndexed (kb : Keyboard) : Prop :=
  kb.WellFormed ∧ ∀ p ∈ kb.keys.enum, mapFind kb.map p.2.keyCode = some p.1

instance (kb : Keyboard) : Decidable kb.WellFormed := by
  unfold Keyboard.WellFormed
  infer_instance

instance (kb : Keyboard) : Decidable kb.FullyIndexed := by
  unfold Keyboard.FullyIndexed
  infer_instance

/-- The builder-resolved width of a key: `applyDefaultsTo(key.size, keySize).width`,
the width by which `addKey` advances the row cursor and the width the key is
rendered with under the keyboard's defaults. -/
def Keyboard.resolvedWidth (kb : Keyboard) (k : KeyShape) : Int :=
  (applyDefaultsTo k.size kb.keySize).width

/-- A two-key keyboard built through the layout builder, used to instantiate
the universally quantified theorems below at a concrete input. -/
def sampleKeyboard : Keyboard :=
  let p := Keyboard.new.nextRow 0
  let q := KeyboardRow.addKey p.1 p.2 "q" "KeyQ"
  let r := KeyboardRow.addKey q.1 q.2.1 "w" "KeyW"
  r.1

/-- The first key of `sampleKeyboard`, as a literal. -/
def sampleKeyQ : KeyShape :=
  { displayChar := "q"
    shiftDisplayChar := " "
    keyCode := "KeyQ"
    size := { width := none, height := none }
    position := { x := 10, y := 10 }
    zIndex := none
    state := KeyState.NeverPressed }

/-- `sampleKeyboard` after a key-down for `KeyQ`. -/
def samplePressed : Keyboard :=
  sampleKeyboard.onKeyDown "KeyQ"

theorem mapFind_mem {m : List (String × Nat)} {c : String} {i : Nat}
    (h : mapFind m c = some i) : (c, i) ∈ m := by
  induction m with
  | nil => simp [mapFind] at h
  | cons p rest ih =>
    rcases p with ⟨a, b⟩
    by_cases hac : a = c
    · subst hac
      simp [mapFind] at h
      subst h
      exact List.mem_cons_self _ _
    · simp [mapFind, hac] at h
      exact List.mem_cons_of_mem _ (ih h)

theorem setKeyState_length (ks : List KeyShape) (i : Nat) (s : KeyState) :
    (setKeyState ks i s).length = ks.length := by
  unfold setKeyState
  cases ks[i]? <;> simp

theorem setKeyState_getElem? (ks : List KeyShape) (i : Nat) (s : KeyState) (j : Nat) :
    (setKeyState ks i s)[j]? =
      if i = j then (ks[j]?).map (fun k => { k with state := s }) else ks[j]? := by
  unfold setKeyState
  cases hks : ks[i]? with
  | none =>
    by_cases hij : i = j
    · subst hij; simp [hks]
    · simp [hij]
  | some k =>
    have hlt : i < ks.length := by
      rcases List.getElem?_eq_some_iff.mp hks with ⟨h, _⟩
      exact h
    by_cases hij : i = j
    · subst hij
      simp [List.getElem?_set_self hlt, hks]
    · simp [List.getElem?_set_ne hij, hij]

theorem applyEvent_key_event (kb : Keyboard) (e : Event) (c : String)
    (h : e.code? = some c) :
    kb.applyEvent e =
      match mapFind kb.map c with
      | none => kb
      | some i => { kb with keys := setKeyState kb.keys i (eventTargetState e) } := by
  cases e with
  | down c2 =>
    simp only [Event.code?, Option.some.injEq] at h
    subst h
    rfl
  | up c2 =>
    simp only [Event.code?, Option.some.injEq] at h
    subst h
    rfl
  | clear => simp [Event.code?] at h

theorem applyEvent_map (kb : Keyboard) (e : Event) :
    (kb.applyEvent e).map = kb.map := by
  cases e with
  | down c =>
    show (kb.onKeyDown c).map = kb.map
    unfold Keyboard.onKeyDown
    cases mapFind kb.map c <;> rfl
  | up c =>
    show (kb.onKeyUp c).map = kb.map
    unfold Keyboard.onKeyUp
    cases mapFind kb.map c <;> rfl
  | clear => rfl

theorem applyEvent_length (kb : Keyboard) (e : Event) :
    (kb.applyEvent e).keys.length = kb.keys.length := by
  cases e with
  | down c =>
    show (kb.onKeyDown c).keys.length = _
    unfold Keyboard.onKeyDown
    cases mapFind kb.map c <;> simp [setKeyState_length]
  | up c =>
    show (kb.onKeyUp c).keys.length = _
    unfold Keyboard.onKeyUp
    cases mapFind kb.map c <;> simp [setKeyState_length]
  | clear =>
    show (kb.clear).keys.length = _
    simp [Keyboard.clear]

theorem applyEvent_keyCode (kb : Keyboard) (e : Event) (j : Nat) :
    ((kb.applyEvent e).keys[j]?).map KeyShape.keyCode =
      (kb.keys[j]?).map KeyShape.keyCode := by
  cases e with
  | clear =>
    show (((kb.keys.map _)[j]?).map _) = _
    rw [List.getElem?_map]
    cases kb.keys[j]? <;> rfl
  | down c =>
    show ((kb.onKeyDown c).keys[j]?).map _ = _
    unfold Keyboard.onKeyDown
    cases hm : mapFind kb.map c with
    | none => rfl
    | some i =>
      simp only [setKeyState_getElem?]
      by_cases hij : i = j
      · subst hij
        simp only [if_pos rfl]
        cases kb.keys[i]? <;> rfl
      · simp [hij]
  | up c =>
    show ((kb.onKeyUp c).keys[j]?).map _ = _
    unfold Keyboard.onKeyUp
    cases hm : mapFind kb.map c with
    | none => rfl
    | some i =>
      simp only [setKeyState_getElem?]
      by_cases hij : i = j
      · subst hij
        simp only [if_pos rfl]
        cases kb.keys[i]? <;> rfl
      · simp [hij]

theorem dispatch_getElem? (kb : Keyboard) (hwf : kb.WellFormed)
    (hidx : ∀ p ∈ kb.keys.enum, mapFind kb.map p.2.keyCode = some p.1)
    (c : String) (s : KeyState) (j : Nat) (k : KeyShape)
    (hk : kb.keys[j]? = some k) :
    (match mapFind kb.map c with
      | none => kb
      | some i => { kb with keys := setKeyState kb.keys i s }).keys[j]? =
      some (if c == k.keyCode then { k with state := s } else k) := by
  by_cases hc : c = k.keyCode
  · subst hc
    have hjk : (j, k) ∈ kb.keys.enum := by
      rw [List.mk_mem_enum_iff_getElem?]
      exact hk
    have hfind : mapFind kb.map k.keyCode = some j := hidx _ hjk
    rw [hfind]
    simp [setKeyState_getElem?, hk]
  · cases hm : mapFind kb.map c with
    | none =>
      have : (c == k.keyCode) = false := by
        simp [hc]
      simp [this, hk]
    | some i =>
      have hij : ¬ i = j := by
        intro h
        have hcode : (kb.keys[i]?).map KeyShape.keyCode = some c :=
          hwf _ (mapFind_mem hm)
        rw [h, hk] at hcode
        simp at hcode
        exact hc hcode.symm
      have : (c == k.keyCode) = false := by
        simp [hc]
      simp [setKeyState_getElem?, hij, hk, this]

theorem applyEvent_getElem? (kb : Keyboard) (hfi : kb.FullyIndexed) (e : Event)
    (j : Nat) (k : KeyShape) (hk : kb.keys[j]? = some k) :
    (kb.applyEvent e).keys[j]? =
      some (if relevantB k.keyCode e then { k with state := eventTargetState e }
            else k) := by
  obtain ⟨hwf, hidx⟩ := hfi
  cases e with
  | clear =>
    show ((kb.keys.map _)[j]?) = _
    simp [relevantB, eventTargetState, hk]
  | down c =>
    have := dispatch_getElem? kb hwf hidx c KeyState.Down j k hk
    rw [applyEvent_key_event kb (Event.down c) c rfl]
    exact this
  | up c =>
    have := dispatch_getElem? kb hwf hidx c KeyState.Pressed j k hk
    rw [applyEvent_key_event kb (Event.up c) c rfl]
    exact this

theorem applyEvent_fullyIndexed (kb : Keyboard) (e : Event)
    (hfi : kb.FullyIndexed) : (kb.applyEvent e).FullyIndexed := by
  obtain ⟨hwf, hidx⟩ := hfi
  constructor
  · intro p hp
    rw [applyEvent_map] at hp
    rw [applyEvent_keyCode]
    exact hwf p hp
  · rintro ⟨j, k'⟩ hp
    rw [List.mk_mem_enum_iff_getElem?] at hp
    have hcode : (kb.keys[j]?).map KeyShape.keyCode = some k'.keyCode := by
      rw [← applyEvent_keyCode kb e j, hp]
      rfl
    cases hk0 : kb.keys[j]? with
    | none => rw [hk0] at hcode; simp at hcode
    | some k0 =>
      rw [hk0] at hcode
      simp at hcode
      have hjk : (j, k0) ∈ kb.keys.enum := by
        rw [List.mk_mem_enum_iff_getElem?]
        exact hk0
      have hmf : mapFind kb.map k0.keyCode = some j := hidx _ hjk
      rw [applyEvent_map]
      show mapFind kb.map k'.keyCode = some j
      rw [← hcode]
      exact hmf

theorem applyEvents_cons (kb : Keyboard) (e : Event) (es : List Event) :
    kb.applyEvents (e :: es) = (kb.applyEvent e).applyEvents es := rfl

theorem applyEvents_append (kb : Keyboard) (es1 es2 : List Event) :
    kb.applyEvents (es1 ++ es2) = (kb.applyEvents es1).applyEvents es2 := by
  simp [Keyboard.applyEvents, List.foldl_append]

theorem applyEvent_wellFormed (kb : Keyboard) (e : Event)
    (hwf : kb.WellFormed) : (kb.applyEvent e).WellFormed := by
  intro p hp
  rw [applyEvent_map] at hp
  rw [applyEvent_keyCode]
  exact hwf p hp

theorem applyEvents_wellFormed (es : List Event) :
    ∀ kb : Keyboard, kb.WellFormed → (kb.applyEvents es).WellFormed := by
  induction es with
  | nil => intro kb h; exact h
  | cons e rest ih =>
    intro kb h
    exact ih _ (applyEvent_wellFormed kb e h)

theorem applyEvents_getElem? (es : List Event) :
    ∀ kb : Keyboard, kb.FullyIndexed → ∀ (j : Nat) (k : KeyShape),
      kb.keys[j]? = some k →
      (kb.applyEvents es).keys[j]? =
        some { k with state := stateAfter k.state (lastRelevant k.keyCode es) } := by
  induction es with
  | nil =>
    intro kb _ j k hk
    exact hk
  | cons e rest ih =>
    intro kb hfi j k hk
    have hk' := applyEvent_getElem? kb hfi e j k hk
    have hfi' := applyEvent_fullyIndexed kb e hfi
    have hstep := ih (kb.applyEvent e) hfi' j _ hk'
    rw [applyEvents_cons, hstep]
    have hcode : (if relevantB k.keyCode e then { k with state := eventTargetState e }
        else k).keyCode = k.keyCode := by
      by_cases hrel : relevantB k.keyCode e = true
      · simp [hrel]
      · simp [hrel]
    rw [show lastRelevant k.keyCode (e :: rest) =
        (match lastRelevant k.keyCode rest with
          | some x => some x
          | none => if relevantB k.keyCode e then some e else none) from rfl]
    cases hlast : lastRelevant k.keyCode rest with
    | some x =>
      by_cases hrel : relevantB k.keyCode e = true <;>
        simp [hrel, hcode, hlast, stateAfter]
    | none =>
      by_cases hrel : relevantB k.keyCode e = true <;>
        simp [hrel, hcode, hlast, stateAfter]

theorem setKeyState_comm (ks : List KeyShape) (i1 i2 : Nat) (s1 s2 : KeyState)
    (h : i1 ≠ i2) :
    setKeyState (setKeyState ks i1 s1) i2 s2 =
      setKeyState (setKeyState ks i2 s2) i1 s1 := by
  apply List.ext_getElem?
  intro j
  simp only [setKeyState_getElem?]
  by_cases h1 : i1 = j <;> by_cases h2 : i2 = j
  · exact absurd (h1.trans h2.symm) h
  · simp [h1, h2]
  · simp [h1, h2]
  · simp [h1, h2]

theorem applyEvent_swap (kb : Keyboard) (hwf : kb.WellFormed) (e1 e2 : Event)
    (c1 c2 : String) (h1 : e1.code? = some c1) (h2 : e2.code? = some c2)
    (hne : c1 ≠ c2) :
    (kb.applyEvent e1).applyEvent e2 = (kb.applyEvent e2).applyEvent e1 := by
  cases hm1 : mapFind kb.map c1 with
  | none =>
    have e1id : kb.applyEvent e1 = kb := by
      rw [applyEvent_key_event kb e1 c1 h1, hm1]
    have hm1b : mapFind (kb.applyEvent e2).map c1 = none := by
      rw [applyEvent_map]; exact hm1
    rw [e1id, applyEvent_key_event (kb.applyEvent e2) e1 c1 h1, hm1b]
  | some i1 =>
    cases hm2 : mapFind kb.map c2 with
    | none =>
      have e2id : kb.applyEvent e2 = kb := by
        rw [applyEvent_key_event kb e2 c2 h2, hm2]
      have hm2b : mapFind (kb.applyEvent e1).map c2 = none := by
        rw [applyEvent_map]; exact hm2
      rw [e2id, applyEvent_key_event (kb.applyEvent e1) e2 c2 h2, hm2b]
    | some i2 =>
      have hk1 : (kb.keys[i1]?).map KeyShape.keyCode = some c1 :=
        hwf _ (mapFind_mem hm1)
      have hk2 : (kb.keys[i2]?).map KeyShape.keyCode = some c2 :=
        hwf _ (mapFind_mem hm2)
      have hne12 : i1 ≠ i2 := by
        intro h
        subst h
        rw [hk1] at hk2
        exact hne (Option.some.inj hk2)
      have hm2b : mapFind (kb.applyEvent e1).map c2 = some i2 := by
        rw [applyEvent_map]; exact hm2
      have hm1b : mapFind (kb.applyEvent e2).map c1 = some i1 := by
        rw [applyEvent_map]; exact hm1
      rw [applyEvent_key_event (kb.applyEvent e1) e2 c2 h2, hm2b,
          applyEvent_key_event (kb.applyEvent e2) e1 c1 h1, hm1b,
          applyEvent_key_event kb e1 c1 h1, hm1,
          applyEvent_key_event kb e2 c2 h2, hm2]
      simp only
      rw [setKeyState_comm kb.keys i1 i2 (eventTargetState e1) (eventTargetState e2) hne12]

theorem applyEvent_state_not_never (kb : Keyboard) (e : Event)
    (he : e ≠ Event.clear) (j : Nat)
    (hs : (kb.keys[j]?).map KeyShape.state ≠ some KeyState.NeverPressed) :
    ((kb.applyEvent e).keys[j]?).map KeyShape.state ≠ some KeyState.NeverPressed := by
  cases e with
  | clear => exact absurd rfl he
  | down c =>
    show ((kb.onKeyDown c).keys[j]?).map KeyShape.state ≠ _
    unfold Keyboard.onKeyDown
    cases hm : mapFind kb.map c with
    | none => exact hs
    | some i =>
      simp only [setKeyState_getElem?]
      by_cases hij : i = j
      · subst hij
        simp only [if_pos rfl]
        cases kb.keys[i]? with
        | none => simp
        | some k => simp
      · simp only [if_neg hij]
        exact hs
  | up c =>
    show ((kb.onKeyUp c).keys[j]?).map KeyShape.state ≠ _
    unfold Keyboard.onKeyUp
    cases hm : mapFind kb.map c with
    | none => exact hs
    | some i =>
      simp only [setKeyState_getElem?]
      by_cases hij : i = j
      · subst hij
        simp only [if_pos rfl]
        cases kb.keys[i]? with
        | none => simp
        | some k => simp
      · simp only [if_neg hij]
        exact hs

theorem applyEvents_state_not_never (es : List Event) :
    ∀ kb : Keyboard, Event.clear ∉ es → ∀ j : Nat,
      (kb.keys[j]?).map KeyShape.state ≠ some KeyState.NeverPressed →
      ((kb.applyEvents es).keys[j]?).map KeyShape.state ≠
        some KeyState.NeverPressed := by
  induction es with
  | nil => intro kb _ j hs; exact hs
  | cons e rest ih =>
    intro kb hnc j hs
    have he : e ≠ Event.clear := by
      intro h
      exact hnc (h ▸ List.mem_cons_self e rest)
    have hrest : Event.clear ∉ rest := fun h => hnc (List.mem_cons_of_mem e h)
    exact ih (kb.applyEvent e) hrest j (applyEvent_state_not_never kb e he j hs)

theorem onKeyUp_known (kb : Keyboard) (c : String) (i : Nat)
    (hm : mapFind kb.map c = some i) (hi : i < kb.keys.length) :
    ((kb.onKeyUp c).keys[i]?).map KeyShape.state = some KeyState.Pressed := by
  unfold Keyboard.onKeyUp
  rw [hm]
  have hk := List.getElem?_eq_getElem hi
  simp [setKeyState_getElem?, hk]

theorem onKeyDown_known (kb : Keyboard) (c : String) (i : Nat)
    (hm : mapFind kb.map c = some i) (hi : i < kb.keys.length) :
    ((kb.onKeyDown c).keys[i]?).map KeyShape.state = some KeyState.Down := by
  unfold Keyboard.onKeyDown
  rw [hm]
  have hk := List.getElem?_eq_getElem hi
  simp [setKeyState_getElem?, hk]

/-- C1: on a keyboard whose keys have pairwise-distinct keycodes and whose
index is consistent with its key list (as the builder guarantees), event
processing is a pure function of the event sequence; each key's final entry
depends only on the latest event relevant to its identifier (latest wins);
each `onKeyDown`/`onKeyUp` changes at most the single key whose keycode
matches the dispatched identifier; and swapping two adjacent key events for
different identifiers yields the same final state. -/
theorem dispatch_latest_wins_and_commutes (kb : Keyboard)
    (hnd : kb.keyCodes.Nodup) (hfi : kb.FullyIndexed) :
    (∀ (es : List Event) (j : Nat) (k : KeyShape), kb.keys[j]? = some k →
      (kb.applyEvents es).keys[j]? =
        some { k with state := stateAfter k.state (lastRelevant k.keyCode es) }) ∧
    (∀ (c : String) (j : Nat) (k : KeyShape), kb.keys[j]? = some k →
      k.keyCode ≠ c →
      (kb.onKeyDown c).keys[j]? = some k ∧ (kb.onKeyUp c).keys[j]? = some k) ∧
    (∀ (e1 e2 : Event) (c1 c2 : String), e1.code? = some c1 →
      e2.code? = some c2 → c1 ≠ c2 → ∀ es1 es2 : List Event,
      kb.applyEvents (es1 ++ e1 :: e2 :: es2) =
        kb.applyEvents (es1 ++ e2 :: e1 :: es2)) := by
  refine ⟨?_, ?_, ?_⟩
  · intro es j k hk
    exact applyEvents_getElem? es kb hfi j k hk
  · intro c j k hk hne
    have hb : (c == k.keyCode) = false := by
      simp only [beq_eq_false_iff_ne, ne_eq]
      exact fun hh => hne hh.symm
    constructor
    · have h := applyEvent_getElem? kb hfi (Event.down c) j k hk
      rw [show (kb.applyEvent (Event.down c)) = kb.onKeyDown c from rfl] at h
      rw [h]
      simp [relevantB, hb]
    · have h := applyEvent_getElem? kb hfi (Event.up c) j k hk
      rw [show (kb.applyEvent (Event.up c)) = kb.onKeyUp c from rfl] at h
      rw [h]
      simp [relevantB, hb]
  · intro e1 e2 c1 c2 h1 h2 hne es1 es2
    rw [applyEvents_append, applyEvents_append]
    have hwf1 : (kb.applyEvents es1).WellFormed :=
      applyEvents_wellFormed es1 kb hfi.1
    rw [applyEvents_cons, applyEvents_cons, applyEvents_cons, applyEvents_cons]
    rw [applyEvent_swap (kb.applyEvents es1) hwf1 e1 e2 c1 c2 h1 h2 hne]

/-- Witness for C1 at the concrete two-key `sampleKeyboard`. -/
theorem dispatch_latest_wins_and_commutes_witness :
    sampleKeyboard.keyCodes.Nodup ∧
    sampleKeyboard.FullyIndexed ∧
    (sampleKeyboard.applyEvents [Event.down "KeyQ", Event.up "KeyQ"]).keys[0]? =
      some { sampleKeyQ with state := (stateAfter sampleKeyQ.state
        (lastRelevant sampleKeyQ.keyCode [Event.down "KeyQ", Event.up "KeyQ"])) } ∧
    (sampleKeyboard.onKeyDown "KeyW").keys[0]? = some sampleKeyQ ∧
    sampleKeyboard.applyEvents ([] ++ Event.down "KeyQ" :: Event.up "KeyW" :: []) =
      sampleKeyboard.applyEvents ([] ++ Event.up "KeyW" :: Event.down "KeyQ" :: []) :=
  ⟨by decide, by decide,
    (dispatch_latest_wins_and_commutes sampleKeyboard (by decide) (by decide)).1
      [Event.down "KeyQ", Event.up "KeyQ"] 0 sampleKeyQ (by decide),
    ((dispatch_latest_wins_and_commutes sampleKeyboard (by decide) (by decide)).2.1
      "KeyW" 0 sampleKeyQ (by decide) (by decide)).1,
    (dispatch_latest_wins_and_commutes sampleKeyboard (by decide) (by decide)).2.2
      (Event.down "KeyQ") (Event.up "KeyW") "KeyQ" "KeyW" rfl rfl (by decide) [] []⟩

/-- C2: a key whose state is not `NeverPressed` never returns to
`NeverPressed` under any sequence of down/up events with no intervening
`clear`; moreover `onKeyUp` for a known identifier sets that key's state to
`Pressed` and `onKeyDown` sets it to `Down`. -/
theorem state_stickiness (kb : Keyboard) (j : Nat) (es : List Event)
    (hs : (kb.keys[j]?).map KeyShape.state ≠ some KeyState.NeverPressed)
    (hnc : Event.clear ∉ es) :
    ((kb.applyEvents es).keys[j]?).map KeyShape.state ≠
      some KeyState.NeverPressed ∧
    (∀ (c : String) (i : Nat), mapFind kb.map c = some i →
      i < kb.keys.length →
      ((kb.onKeyUp c).keys[i]?).map KeyShape.state = some KeyState.Pressed ∧
      ((kb.onKeyDown c).keys[i]?).map KeyShape.state = some KeyState.Down) := by
  constructor
  · exact applyEvents_state_not_never es kb hnc j hs
  · intro c i hm hi
    exact ⟨onKeyUp_known kb c i hm hi, onKeyDown_known kb c i hm hi⟩

/-- Witness for C2 at `samplePressed` (`KeyQ` is `Down` there). -/
theorem state_stickiness_witness :
    (samplePressed.keys[0]?).map KeyShape.state ≠ some KeyState.NeverPressed ∧
    ((samplePressed.applyEvents [Event.up "KeyW", Event.down "KeyQ"]).keys[0]?).map
      KeyShape.state ≠ some KeyState.NeverPressed ∧
    ((samplePressed.onKeyUp "KeyQ").keys[0]?).map KeyShape.state =
      some KeyState.Pressed ∧
    ((samplePressed.onKeyDown "KeyQ").keys[0]?).map KeyShape.state =
      some KeyState.Down :=
  ⟨by decide,
    (state_stickiness samplePressed 0 [Event.up "KeyW", Event.down "KeyQ"]
      (by decide) (by decide)).1,
    ((state_stickiness samplePressed 0 [] (by decide) (by decide)).2
      "KeyQ" 0 (by decide) (by decide)).1,
    ((state_stickiness samplePressed 0 [] (by decide) (by decide)).2
      "KeyQ" 0 (by decide) (by decide)).2⟩

/-- C3: after `Keyboard.clear()` every key of the keyboard has state
`NeverPressed`, whatever its state was before. -/
theorem clear_resets_all_keys (kb : Keyboard) (j : Nat)
    (hj : j < kb.keys.length) :
    ((kb.clear).keys[j]?).map KeyShape.state = some KeyState.NeverPressed := by
  have hk := List.getElem?_eq_getElem hj
  show (((kb.keys.map _)[j]?).map _) = _
  simp [hk]

/-- Witness for C3 at `samplePressed` (whose key 0 is `Down` before the
clear). -/
theorem clear_resets_all_keys_witness :
    0 < samplePressed.keys.length ∧
    ((samplePressed.clear).keys[0]?).map KeyShape.state =
      some KeyState.NeverPressed :=
  ⟨by decide, clear_resets_all_keys samplePressed 0 (by decide)⟩

/-- C4: dispatching `onKeyDown` or `onKeyUp` with an identifier that matches
no key of a well-formed keyboard leaves the keyboard entirely unchanged (and,
being a total function, raises no error). -/
theorem unknown_identifier_ignored (kb : Keyboard) (c : String)
    (hwf : kb.WellFormed) (habs : ∀ k ∈ kb.keys, k.keyCode ≠ c) :
    kb.onKeyDown c = kb ∧ kb.onKeyUp c = kb := by
  have hm : mapFind kb.map c = none := by
    cases hm : mapFind kb.map c with
    | none => rfl
    | some i =>
      have hcode : (kb.keys[i]?).map KeyShape.keyCode = some c :=
        hwf _ (mapFind_mem hm)
      cases hk : kb.keys[i]? with
      | none => rw [hk] at hcode; simp at hcode
      | some k =>
        rw [hk] at hcode
        simp at hcode
        exact absurd hcode (habs k (List.getElem?_mem hk))
  constructor
  · show (match mapFind kb.map c with
      | none => kb
      | some i => { kb with keys := setKeyState kb.keys i KeyState.Down }) = kb
    rw [hm]
  · show (match mapFind kb.map c with
      | none => kb
      | some i => { kb with keys := setKeyState kb.keys i KeyState.Pressed }) = kb
    rw [hm]

/-- Witness for C4: `Fn` matches no key of `sampleKeyboard`. -/
theorem unknown_identifier_ignored_witness :
    sampleKeyboard.onKeyDown "Fn" = sampleKeyboard ∧
    sampleKeyboard.onKeyUp "Fn" = sampleKeyboard :=
  unknown_identifier_ignored sampleKeyboard "Fn" (by decide) (by decide)

/-- C10: `addGap(width)` advances the row's horizontal cursor by exactly
`width` — also when `width` is zero or negative, in which case the cursor
moves backwards — leaves the rest of the row unchanged, and creates no key
(in the source it touches only `this.nextPosition`; the embedded `addGap`
does not even take the keyboard state). -/
theorem addGap_advances_cursor (row : KeyboardRow) (w : Int) :
    (KeyboardRow.addGap row w).nextPosition.x = row.nextPosition.x + w ∧
    (KeyboardRow.addGap row w).nextPosition.y = row.nextPosition.y ∧
    (KeyboardRow.addGap row w).position = row.position ∧
    (KeyboardRow.addGap row (-5)).nextPosition.x = row.nextPosition.x - 5 := by
  refine ⟨rfl, rfl, rfl, ?_⟩
  show row.nextPosition.x + (-5) = row.nextPosition.x - 5
  omega

/-- C5 (documents the code bug): `getKey` never logs an error for an unknown
keycode — the `console.error` branch tests `key === null`, but a missing
`#map` entry yields the JS value `undefined`, so the branch is unreachable.
Concretely, `getKey('Fn')` on the base Logitech layout returns `undefined`
without logging, where the spec promises a logged error. -/
theorem getKey_unknown_never_logs :
    (∀ (kb : Keyboard) (c : String), (kb.getKey c).2 = false) ∧
    getWindowsLogitechKeyboard.getKey "Fn" = (JSVal.undef, false) := by
  constructor
  · intro kb c
    unfold Keyboard.getKey
    cases mapFind kb.map c <;> rfl
  · rfl

/-- C6: `addKey` with an omitted width (the source default `-1`), width `0`,
and width `-5` produce identical results: the key's stored width is `null`,
its builder-resolved width is the keyboard's default key width, and the row
cursor advances by exactly that default width. -/
theorem addKey_width_defaulting (kb : Keyboard) (row : KeyboardRow)
    (dc code : String) :
    KeyboardRow.addKey kb row dc code = KeyboardRow.addKeyW kb row dc code 0 ∧
    KeyboardRow.addKeyW kb row dc code 0 =
      KeyboardRow.addKeyW kb row dc code (-5) ∧
    ((KeyboardRow.addKey kb row dc code).1.keys.getLast?).map
      (fun k => k.size.width) = some none ∧
    ((KeyboardRow.addKey kb row dc code).1.keys.getLast?).map
      (fun k => kb.resolvedWidth k) = some kb.keySize.width ∧
    (KeyboardRow.addKey kb row dc code).2.1.nextPosition.x =
      row.nextPosition.x + kb.keySize.width := by
  refine ⟨rfl, rfl, ?_, ?_, ?_⟩
  · show ((kb.keys ++ [_]).getLast?).map _ = _
    rw [List.getLast?_concat]
    rfl
  · show ((kb.keys ++ [_]).getLast?).map _ = _
    rw [List.getLast?_concat]
    rfl
  · rfl

/-- C7: `nextRow(gap)` returns a row starting at
`(startPosition.x, nextRowPosition.y + gap)` (the horizontal cursor always
sits at the start margin), with its cursor at that same point, and advances
the keyboard's vertical cursor by exactly `gap + keySize.height`; it adds no
key. -/
theorem nextRow_geometry (kb : Keyboard) (gap : Int)
    (hx : kb.nextRowPosition.x = kb.startPosition.x) :
    (kb.nextRow gap).2.position.x = kb.startPosition.x ∧
    (kb.nextRow gap).2.position.y = kb.nextRowPosition.y + gap ∧
    (kb.nextRow gap).2.nextPosition = (kb.nextRow gap).2.position ∧
    (kb.nextRow gap).1.nextRowPosition.y =
      kb.nextRowPosition.y + (gap + kb.keySize.height) ∧
    (kb.nextRow gap).1.nextRowPosition.x = kb.startPosition.x ∧
    (kb.nextRow gap).1.keys = kb.keys := by
  refine ⟨hx, rfl, rfl, ?_, rfl, rfl⟩
  show kb.nextRowPosition.y + gap + kb.keySize.height = _
  omega

/-- Witness for C7 at a fresh keyboard and gap 5. -/
theorem nextRow_geometry_witness :
    Keyboard.new.nextRowPosition.x = Keyboard.new.startPosition.x ∧
    ((Keyboard.new.nextRow 5).2.position.x = Keyboard.new.startPosition.x ∧
      (Keyboard.new.nextRow 5).2.position.y =
        Keyboard.new.nextRowPosition.y + 5 ∧
      (Keyboard.new.nextRow 5).2.nextPosition =
        (Keyboard.new.nextRow 5).2.position ∧
      (Keyboard.new.nextRow 5).1.nextRowPosition.y =
        Keyboard.new.nextRowPosition.y + (5 + Keyboard.new.keySize.height) ∧
      (Keyboard.new.nextRow 5).1.nextRowPosition.x =
        Keyboard.new.startPosition.x ∧
      (Keyboard.new.nextRow 5).1.keys = Keyboard.new.keys) :=
  ⟨rfl, nextRow_geometry Keyboard.new 5 rfl⟩

set_option maxRecDepth 100000 in
set_option maxHeartbeats 4000000 in
/-- C8: on the derived Logitech-2 keyboard — built from the base Logitech
layout by relabeling the `ContextMenu` key to identifier `Fn` and rebuilding
the index — key-up for `ContextMenu` changes nothing (unknown identifier),
while key-up for `Fn` sets that key's (relabeled) state to `Pressed`. -/
theorem logitech2_relabel_scenario :
    (getWindowsLogitech2Keyboard.map fun kb2 =>
      decide (kb2.onKeyUp "ContextMenu" = kb2) &&
      (match mapFind kb2.map "Fn" with
        | some i =>
          decide (((kb2.onKeyUp "Fn").keys[i]?).map KeyShape.state =
            some KeyState.Pressed) &&
          decide ((kb2.keys[i]?).map KeyShape.keyCode = some "Fn")
        | none => false)) = some true := by
  decide

set_option maxRecDepth 100000 in
set_option maxHeartbeats 4000000 in
/-- C9: in each keyboard produced by the five catalog factories, no two keys
share a keycode. -/
theorem catalog_keycode_uniqueness :
    getWindowsGenericKeyboard.keyCodes.Nodup ∧
    getWindowsHPDesktopKeyboard.keyCodes.Nodup ∧
    getWindowsLogitechKeyboard.keyCodes.Nodup ∧
    (getWindowsLogitech2Keyboard.map fun kb => decide kb.keyCodes.Nodup) =
      some true ∧
    getMacBookProKeyboard.keyCodes.Nodup :=
  ⟨by decide, by decide, by decide, by decide, by decide⟩
